import Mathlib

/-!
Shallow embedding of the Crashify360 total-loss decision core
(src/config.py, src/validator.py, src/valuation_engine.py).

Monetary amounts are modelled as rationals; Python strings are Lean
strings, with the Python primitives strip / upper / lower re-implemented
over character lists.  The optional contact fields (owner_email,
owner_phone) of validate_total_loss_input are elided: the valuation
engine, the only caller in scope of the claims, never supplies them, so
their validation branches are never reached.  Side effects (logging,
timestamps) are dropped; everything else follows the source line by line.
-/

namespace Crashify

/-! ## Python string primitives -/

/-- Whitespace characters removed by the Python str.strip default. -/
def pySpace (c : Char) : Bool :=
  c = ' ' || c = '\t' || c = '\n' || c = '\x0d' || c = '\x0b' || c = '\x0c'

/-- Upper-case a single character, ASCII-style (Python str.upper on ASCII). -/
def pyUpperChar (c : Char) : Bool × Char :=
  if 'a' ≤ c ∧ c ≤ 'z' then (true, Char.ofNat (c.toNat - 32)) else (false, c)

/-- Lower-case a single character, ASCII-style (Python str.lower on ASCII). -/
def pyLowerChar (c : Char) : Char :=
  if 'A' ≤ c ∧ c ≤ 'Z' then Char.ofNat (c.toNat + 32) else c

/-- Python str.strip on a character list: drop surrounding whitespace. -/
def pyStripList (l : List Char) : List Char :=
  ((l.dropWhile pySpace).reverse.dropWhile pySpace).reverse

/-- Python str.strip. -/
def pyStrip (s : String) : String :=
  String.mk (pyStripList s.toList)

/-- Python str.upper (ASCII fragment). -/
def pyUpper (s : String) : String :=
  String.mk (s.toList.map (fun c => (pyUpperChar c).2))

/-- Python str.lower (ASCII fragment). -/
def pyLower (s : String) : String :=
  String.mk (s.toList.map pyLowerChar)

/-! ## config.py -/

/-- Valuation thresholds by policy type (config.THRESHOLDS). -/
def THRESHOLDS : List (String × ℚ) :=
  [("client", 7/10), ("third_party", 7/10), ("commercial", 13/20), ("luxury", 3/4)]

/-- Recognized policy types (config.POLICY_TYPES). -/
def POLICY_TYPES : List String :=
  ["comprehensive", "third_party_property", "third_party_fire_theft", "commercial"]

/-- Loss types with display labels (config.LOSS_TYPES). -/
def LOSS_TYPES : List (String × String) :=
  [("client", "Client Vehicle (Own Damage)"), ("third_party", "Third Party Vehicle")]

/-- config.VALIDATION_RULES min_policy_value. -/
def min_policy_value : ℚ := 1000

/-- config.VALIDATION_RULES max_policy_value. -/
def max_policy_value : ℚ := 500000

/-- config.VALIDATION_RULES min_salvage_value. -/
def min_salvage_value : ℚ := 0

/-- config.VALIDATION_RULES min_repair_quote. -/
def min_repair_quote : ℚ := 0

/-- config.VALIDATION_RULES max repair-quote multiple of policy value (2.0). -/
def max_repair_quote_factor : ℚ := 2

/-- config.get_threshold: table lookup with fallback to the client entry. -/
def get_threshold (policy_type : String) : ℚ :=
  ((THRESHOLDS.lookup policy_type).getD ((THRESHOLDS.lookup "client").getD 0))

/-! ## validator.py: ValidationResult -/

/-- One validation error: field, message, offending value as text. -/
structure VErrorEntry where
  field : String
  message : String
  value : Option String
deriving DecidableEq, Repr

/-- One validation warning: field and message. -/
structure VWarnEntry where
  field : String
  message : String
deriving DecidableEq, Repr

/-- validator.ValidationResult: ordered error and warning sequences. -/
structure ValidationResult where
  errors : List VErrorEntry := []
  warnings : List VWarnEntry := []
deriving DecidableEq, Repr

/-- ValidationResult.add_error: append an error entry. -/
def ValidationResult.add_error (r : ValidationResult) (field message : String)
    (value : Option String) : ValidationResult :=
  { r with errors := r.errors ++ [⟨field, message, value⟩] }

/-- ValidationResult.add_warning: append a warning entry. -/
def ValidationResult.add_warning (r : ValidationResult) (field message : String) :
    ValidationResult :=
  { r with warnings := r.warnings ++ [⟨field, message⟩] }

/-- ValidationResult.is_valid: no errors recorded. -/
def ValidationResult.is_valid (r : ValidationResult) : Bool :=
  r.errors.length == 0

/-- ValidationResult.get_summary (emoji prefixes dropped). -/
def ValidationResult.get_summary (r : ValidationResult) : String :=
  if r.is_valid then
    if r.warnings.length ≠ 0 then
      "All validations passed (" ++ toString r.warnings.length ++ " warning(s))"
    else
      "All validations passed"
  else
    "Validation failed with " ++ toString r.errors.length ++ " error(s)" ++
      String.join (r.errors.map (fun e => "; " ++ e.field ++ ": " ++ e.message))

/-! ## validator.py: field validators -/

/-- Character class of the VIN regex [A-HJ-NPR-Z0-9]. -/
def isVinChar (c : Char) : Bool :=
  ('A' ≤ c && c ≤ 'H') || ('J' ≤ c && c ≤ 'N') || c = 'P' ||
    ('R' ≤ c && c ≤ 'Z') || ('0' ≤ c && c ≤ '9')

/-- InputValidator.validate_vin: empty check, strip + upper, length 17,
regex [A-HJ-NPR-Z0-9] over all 17 characters. -/
def validate_vin (vin : String) : Bool :=
  if vin = "" then false
  else
    let v := pyUpper (pyStrip vin)
    if v.toList.length ≠ 17 then false
    else v.toList.length == 17 && v.toList.all isVinChar

/-- InputValidator.validate_policy_type: lower-cased membership in POLICY_TYPES. -/
def validate_policy_type (policy_type : String) : Bool :=
  POLICY_TYPES.contains (pyLower policy_type)

/-- InputValidator.validate_loss_type: lower-cased membership in the LOSS_TYPES keys. -/
def validate_loss_type (loss_type : String) : Bool :=
  (LOSS_TYPES.lookup (pyLower loss_type)).isSome

/-- InputValidator.validate_monetary_value on an already-numeric value:
non-negative, then optional lower and upper bounds, with the error message
of the first violated rule. -/
def validate_monetary_value (value : ℚ) (field_name : String)
    (min_value max_value : Option ℚ) : Bool × Option String :=
  if value < 0 then (false, some (field_name ++ " cannot be negative"))
  else
    match min_value with
    | some m =>
      if value < m then (false, some (field_name ++ " must be at least " ++ toString m))
      else
        match max_value with
        | some M =>
          if value > M then (false, some (field_name ++ " cannot exceed " ++ toString M))
          else (true, none)
        | none => (true, none)
    | none =>
      match max_value with
      | some M =>
        if value > M then (false, some (field_name ++ " cannot exceed " ++ toString M))
        else (true, none)
      | none => (true, none)

/-- InputValidator.validate_total_loss_input: run every field rule, collecting
errors and warnings into one ValidationResult (contact fields elided, see
module comment). -/
def validate_total_loss_input (vin policy_type : String)
    (policy_value salvage_value repair_quote : ℚ) (loss_type : String) :
    ValidationResult :=
  let result : ValidationResult := {}
  let result :=
    if validate_vin vin then result
    else result.add_error "vin"
      "Invalid VIN format. Must be 17 characters, alphanumeric (no I, O, Q)" (some vin)
  let result :=
    if validate_policy_type policy_type then result
    else result.add_error "policy_type"
      ("Invalid policy type. Must be one of: " ++ String.intercalate ", " POLICY_TYPES)
      (some policy_type)
  let result :=
    if validate_loss_type loss_type then result
    else result.add_error "loss_type"
      ("Invalid loss type. Must be one of: " ++
        String.intercalate ", " (LOSS_TYPES.map Prod.fst))
      (some loss_type)
  let pvCheck := validate_monetary_value policy_value "Policy Value"
    (some min_policy_value) (some max_policy_value)
  let result :=
    if pvCheck.1 then result
    else result.add_error "policy_value" (pvCheck.2.getD "") (some (toString policy_value))
  let svCheck := validate_monetary_value salvage_value "Salvage Value"
    (some min_salvage_value) none
  let result :=
    if svCheck.1 then
      if salvage_value > policy_value then
        result.add_error "salvage_value" "Salvage value cannot exceed policy value"
          (some (toString salvage_value))
      else result
    else result.add_error "salvage_value" (svCheck.2.getD "") (some (toString salvage_value))
  let rqCheck := validate_monetary_value repair_quote "Repair Quote"
    (some min_repair_quote) none
  let result :=
    if rqCheck.1 then
      if repair_quote > policy_value * max_repair_quote_factor then
        result.add_warning "repair_quote"
          ("Repair quote is " ++ toString (repair_quote / policy_value) ++
            "x the policy value. Please verify.")
      else result
    else result.add_error "repair_quote" (rqCheck.2.getD "") (some (toString repair_quote))
  result

/-! ## valuation_engine.py -/

/-- valuation_engine.ValuationResult: a computed decision record (the
timestamp, a wall-clock side effect, is dropped). -/
structure ValuationResult where
  is_total_loss : Bool
  threshold : ℚ
  policy_value : ℚ
  salvage_value : ℚ
  repair_quote : ℚ
  loss_type : String
  policy_type : String
  vin : String
  calculation_method : String
  threshold_percentage : ℚ
  decision_margin : ℚ
deriving DecidableEq, Repr

/-- ValuationResult.__init__: stores the given fields and derives
threshold_percentage (guarded against a zero threshold) and
decision_margin. -/
def ValuationResult.make (is_total_loss : Bool) (threshold policy_value salvage_value
    repair_quote : ℚ) (loss_type policy_type vin calculation_method : String) :
    ValuationResult :=
  { is_total_loss := is_total_loss
    threshold := threshold
    policy_value := policy_value
    salvage_value := salvage_value
    repair_quote := repair_quote
    loss_type := loss_type
    policy_type := policy_type
    vin := vin
    calculation_method := calculation_method
    threshold_percentage := if threshold > 0 then repair_quote / threshold * 100 else 0
    decision_margin := repair_quote - threshold }

/-- The three ways ValuationEngine.calculate_total_loss can come back:
the Python (None, validation) pair on failed validation, the
(result, validation) pair on success, or a raised ValueError. -/
inductive CalcOutcome where
  | invalid (validation : ValidationResult)
  | ok (result : ValuationResult) (validation : ValidationResult)
  | valueError (msg : String)
deriving DecidableEq, Repr

/-- ValuationEngine.calculate_total_loss: validate unless told to skip,
stop on a failed validation, look up the threshold fraction, branch on the
loss type, decide by strict comparison, and assemble the result. -/
def calculate_total_loss (vin policy_type : String)
    (policy_value salvage_value repair_quote : ℚ) (loss_type : String)
    (skip_validation : Bool) : CalcOutcome :=
  let validation : ValidationResult :=
    if skip_validation then {}
    else validate_total_loss_input vin policy_type policy_value salvage_value
      repair_quote loss_type
  if ¬skip_validation ∧ validation.is_valid = false then .invalid validation
  else
    let threshold_pct := get_threshold policy_type
    if loss_type = "client" then
      let threshold := policy_value * threshold_pct
      let calculation_method := toString (threshold_pct * 100) ++ "% of Policy Value"
      let is_total_loss := repair_quote > threshold
      .ok (ValuationResult.make is_total_loss threshold policy_value salvage_value
        repair_quote loss_type policy_type vin calculation_method) validation
    else if loss_type = "third_party" then
      let net_value := policy_value - salvage_value
      let threshold := net_value * threshold_pct
      let calculation_method :=
        toString (threshold_pct * 100) ++ "% of Net Value (Policy - Salvage)"
      let is_total_loss := repair_quote > threshold
      .ok (ValuationResult.make is_total_loss threshold policy_value salvage_value
        repair_quote loss_type policy_type vin calculation_method) validation
    else .valueError ("Invalid loss type: " ++ loss_type)

/-- The result component of an outcome (a placeholder record when none). -/
def CalcOutcome.resultOf : CalcOutcome → ValuationResult
  | .ok r _ => r
  | _ => ValuationResult.make false 0 0 0 0 "" "" "" ""

/-- The validation component of an outcome (empty when a ValueError). -/
def CalcOutcome.validationOf : CalcOutcome → ValidationResult
  | .ok _ v => v
  | .invalid v => v
  | .valueError _ => {}

/-- One batch case: the keyword arguments main.py and test_suite.py put in a
batch case dictionary (skip_validation is never among them, so it takes its
default False). -/
structure Case where
  vin : String
  policy_type : String
  policy_value : ℚ
  salvage_value : ℚ
  repair_quote : ℚ
  loss_type : String
deriving DecidableEq, Repr

/-- calculate_total_loss applied to one batch case with default arguments. -/
def runCase (c : Case) : CalcOutcome :=
  calculate_total_loss c.vin c.policy_type c.policy_value c.salvage_value
    c.repair_quote c.loss_type false

/-- One entry of the batch output: the case echoed back, the result (None on a
failed validation) and the validation summary string. -/
structure BatchEntry where
  case_echo : Case
  result : Option ValuationResult
  validation_summary : String
deriving DecidableEq, Repr

/-- The batch entry built from one outcome (the ValueError arm is never
reached by calculate_batch, which aborts first). -/
def batchEntry (c : Case) : CalcOutcome → BatchEntry
  | .invalid v => ⟨c, none, v.get_summary⟩
  | .ok r v => ⟨c, some r, v.get_summary⟩
  | .valueError _ => ⟨c, none, ""⟩

/-- ValuationEngine.calculate_batch: fold calculate_total_loss over the cases
in order; a raised ValueError propagates and aborts the whole batch, losing
every entry, exactly as an uncaught Python exception would. -/
def calculate_batch : List Case → Except String (List BatchEntry)
  | [] => .ok []
  | c :: rest =>
    match runCase c with
    | .valueError msg => .error msg
    | .invalid v =>
      match calculate_batch rest with
      | .ok l => .ok (batchEntry c (.invalid v) :: l)
      | .error msg => .error msg
    | .ok r v =>
      match calculate_batch rest with
      | .ok l => .ok (batchEntry c (.ok r v) :: l)
      | .error msg => .error msg

/-! ## Error and warning entries produced by validate_total_loss_input,
named so that proofs can speak about the error list segment by segment. -/

/-- The vin error entry. -/
def vinErr (vin : String) : VErrorEntry :=
  ⟨"vin", "Invalid VIN format. Must be 17 characters, alphanumeric (no I, O, Q)", some vin⟩

/-- The policy_type error entry. -/
def ptErr (policy_type : String) : VErrorEntry :=
  ⟨"policy_type", "Invalid policy type. Must be one of: " ++ String.intercalate ", " POLICY_TYPES,
    some policy_type⟩

/-- The loss_type error entry. -/
def ltErr (loss_type : String) : VErrorEntry :=
  ⟨"loss_type", "Invalid loss type. Must be one of: " ++
    String.intercalate ", " (LOSS_TYPES.map Prod.fst), some loss_type⟩

/-- The policy_value error entry. -/
def pvErr (policy_value : ℚ) : VErrorEntry :=
  ⟨"policy_value",
    (validate_monetary_value policy_value "Policy Value" (some min_policy_value)
      (some max_policy_value)).2.getD "", some (toString policy_value)⟩

/-- The salvage_value range error entry. -/
def svErr (salvage_value : ℚ) : VErrorEntry :=
  ⟨"salvage_value",
    (validate_monetary_value salvage_value "Salvage Value" (some min_salvage_value)
      none).2.getD "", some (toString salvage_value)⟩

/-- The salvage-exceeds-policy cross-field error entry. -/
def svCrossErr (salvage_value : ℚ) : VErrorEntry :=
  ⟨"salvage_value", "Salvage value cannot exceed policy value", some (toString salvage_value)⟩

/-- The repair_quote error entry. -/
def rqErr (repair_quote : ℚ) : VErrorEntry :=
  ⟨"repair_quote",
    (validate_monetary_value repair_quote "Repair Quote" (some min_repair_quote)
      none).2.getD "", some (toString repair_quote)⟩

/-- The high-repair-quote warning entry. -/
def rqWarn (policy_value repair_quote : ℚ) : VWarnEntry :=
  ⟨"repair_quote", "Repair quote is " ++ toString (repair_quote / policy_value) ++
    "x the policy value. Please verify."⟩

/-! ## Spec-side definition for the vehicle-identifier claim -/

/-- Spec side (claim C9 wording): a character of the 33-symbol alphabet,
digits 0 to 9 and uppercase letters excluding I, O and Q. -/
def specVinChar (c : Char) : Prop :=
  ('0' ≤ c ∧ c ≤ '9') ∨ ('A' ≤ c ∧ c ≤ 'Z' ∧ c ≠ 'I' ∧ c ≠ 'O' ∧ c ≠ 'Q')

/-- Spec side (claim C9 wording): after trimming surrounding whitespace and
upper-casing, the string is exactly 17 characters drawn from the alphabet. -/
def specVinAccepts (s : String) : Prop :=
  (pyUpper (pyStrip s)).toList.length = 17 ∧
    ∀ c ∈ (pyUpper (pyStrip s)).toList, specVinChar c

/-! ## Concrete inputs used by witnesses and counterexamples -/

/-- A well-formed 17-character vehicle identifier used across the repository
tests. -/
def demo_vin : String := "1HGBH41JXMN109186"

/-- Spec scenario A: client loss, policy 20000, salvage 5000, repair 15000. -/
def calcA : CalcOutcome :=
  calculate_total_loss demo_vin "comprehensive" 20000 5000 15000 "client" false

/-- Spec scenario B: third-party loss, policy 25000, salvage 7000, repair 13000. -/
def calcB : CalcOutcome :=
  calculate_total_loss demo_vin "comprehensive" 25000 7000 13000 "third_party" false

/-- Third-party boundary case with salvage equal to policy value. -/
def calcZero : CalcOutcome :=
  calculate_total_loss demo_vin "comprehensive" 20000 20000 1000 "third_party" false

/-- A batch case whose loss type differs from the exact lowercase string only
in case: it passes validation but makes the engine raise. -/
def upperLossCase : Case := ⟨demo_vin, "comprehensive", 20000, 5000, 15000, "CLIENT"⟩

/-- A fully valid batch case. -/
def goodCase : Case := ⟨demo_vin, "comprehensive", 20000, 5000, 15000, "client"⟩

/-- A batch case that fails validation (empty vehicle identifier). -/
def invalidVinCase : Case := ⟨"", "comprehensive", 20000, 5000, 15000, "client"⟩

/-! ## Structural lemmas about the validator -/

set_option maxHeartbeats 2000000 in
theorem vtli_errors_eq (vin pt : String) (pv sv rq : ℚ) (lt : String) :
    (validate_total_loss_input vin pt pv sv rq lt).errors =
      (if validate_vin vin then [] else [vinErr vin]) ++
      (if validate_policy_type pt then [] else [ptErr pt]) ++
      (if validate_loss_type lt then [] else [ltErr lt]) ++
      (if (validate_monetary_value pv "Policy Value" (some min_policy_value)
            (some max_policy_value)).1 then [] else [pvErr pv]) ++
      (if (validate_monetary_value sv "Salvage Value" (some min_salvage_value) none).1 then
        (if sv > pv then [svCrossErr sv] else []) else [svErr sv]) ++
      (if (validate_monetary_value rq "Repair Quote" (some min_repair_quote) none).1 then []
        else [rqErr rq]) := by
  unfold validate_total_loss_input
  split_ifs <;>
    simp_all [ValidationResult.add_error, ValidationResult.add_warning,
      apply_ite ValidationResult.errors, apply_ite ValidationResult.warnings,
      vinErr, ptErr, ltErr, pvErr, svErr, svCrossErr, rqErr]

set_option maxHeartbeats 2000000 in
theorem vtli_warnings_eq (vin pt : String) (pv sv rq : ℚ) (lt : String) :
    (validate_total_loss_input vin pt pv sv rq lt).warnings =
      (if (validate_monetary_value rq "Repair Quote" (some min_repair_quote) none).1 then
        (if rq > pv * max_repair_quote_factor then [rqWarn pv rq] else []) else []) := by
  unfold validate_total_loss_input
  split_ifs <;>
    simp_all [ValidationResult.add_error, ValidationResult.add_warning,
      apply_ite ValidationResult.errors, apply_ite ValidationResult.warnings, rqWarn]

theorem monetary_bounds_true_iff (x mn mx : ℚ) (name : String) (h0 : 0 ≤ mn) :
    (validate_monetary_value x name (some mn) (some mx)).1 = true ↔ (mn ≤ x ∧ x ≤ mx) := by
  unfold validate_monetary_value
  dsimp only
  split_ifs <;> simp_all <;> intros <;> linarith

theorem monetary_min_true_iff (x mn : ℚ) (name : String) (h0 : 0 ≤ mn) :
    (validate_monetary_value x name (some mn) none).1 = true ↔ mn ≤ x := by
  unfold validate_monetary_value
  dsimp only
  split_ifs <;> simp_all <;> intros <;> linarith

/-- Everything a passed validation guarantees about the raw inputs. -/
theorem valid_facts (vin pt : String) (pv sv rq : ℚ) (lt : String)
    (h : (validate_total_loss_input vin pt pv sv rq lt).is_valid = true) :
    validate_vin vin = true ∧ validate_policy_type pt = true ∧
    validate_loss_type lt = true ∧
    min_policy_value ≤ pv ∧ pv ≤ max_policy_value ∧
    0 ≤ sv ∧ sv ≤ pv ∧ 0 ≤ rq := by
  rw [ValidationResult.is_valid] at h
  rw [vtli_errors_eq] at h
  simp only [beq_iff_eq, List.length_append, Nat.add_eq_zero, List.length_eq_zero,
    decide_eq_true_eq] at h
  obtain ⟨⟨⟨⟨⟨h1, h2⟩, h3⟩, h4⟩, h5⟩, h6⟩ := h
  have hvin : validate_vin vin = true := by
    by_cases c : validate_vin vin = true
    · exact c
    · simp [c] at h1
  have hpt : validate_policy_type pt = true := by
    by_cases c : validate_policy_type pt = true
    · exact c
    · simp [c] at h2
  have hlt : validate_loss_type lt = true := by
    by_cases c : validate_loss_type lt = true
    · exact c
    · simp [c] at h3
  have hpvc : (validate_monetary_value pv "Policy Value" (some min_policy_value)
      (some max_policy_value)).1 = true := by
    by_cases c : (validate_monetary_value pv "Policy Value" (some min_policy_value)
        (some max_policy_value)).1 = true
    · exact c
    · simp [c] at h4
  have hpv := (monetary_bounds_true_iff pv min_policy_value max_policy_value "Policy Value"
    (by norm_num [min_policy_value])).1 hpvc
  have hsvc : (validate_monetary_value sv "Salvage Value" (some min_salvage_value)
      none).1 = true := by
    by_cases c : (validate_monetary_value sv "Salvage Value" (some min_salvage_value)
        none).1 = true
    · exact c
    · simp [c] at h5
  have hsv0 : (0 : ℚ) ≤ sv := by
    have := (monetary_min_true_iff sv min_salvage_value "Salvage Value"
      (by norm_num [min_salvage_value])).1 hsvc
    simpa [min_salvage_value] using this
  have hsvpv : sv ≤ pv := by
    simp [hsvc] at h5
    exact h5
  have hrqc : (validate_monetary_value rq "Repair Quote" (some min_repair_quote)
      none).1 = true := by
    by_cases c : (validate_monetary_value rq "Repair Quote" (some min_repair_quote)
        none).1 = true
    · exact c
    · simp [c] at h6
  have hrq0 : (0 : ℚ) ≤ rq := by
    have := (monetary_min_true_iff rq min_repair_quote "Repair Quote"
      (by norm_num [min_repair_quote])).1 hrqc
    simpa [min_repair_quote] using this
  exact ⟨hvin, hpt, hlt, hpv.1, hpv.2, hsv0, hsvpv, hrq0⟩

/-! ## Structural lemmas about the threshold table and the engine -/

theorem get_threshold_cases (p : String) :
    get_threshold p = 7/10 ∨ get_threshold p = 13/20 ∨ get_threshold p = 3/4 := by
  unfold get_threshold THRESHOLDS
  simp only [List.lookup]
  cases hc1 : p == "client" <;> cases hc2 : p == "third_party" <;>
    cases hc3 : p == "commercial" <;> cases hc4 : p == "luxury" <;>
    simp [hc1, hc2, hc3, hc4]

theorem get_threshold_pos (p : String) : 0 < get_threshold p := by
  rcases get_threshold_cases p with h | h | h <;> rw [h] <;> norm_num

theorem get_threshold_le_two (p : String) : get_threshold p ≤ 2 := by
  rcases get_threshold_cases p with h | h | h <;> rw [h] <;> norm_num

/-- Inversion of a successful calculate_total_loss: the result is built by
ValuationResult.make from the branch the loss type selected. -/
theorem calc_ok_fields (vin pt : String) (pv sv rq : ℚ) (lt : String) (skip : Bool)
    (r : ValuationResult) (v : ValidationResult)
    (h : calculate_total_loss vin pt pv sv rq lt skip = .ok r v) :
    r.repair_quote = rq ∧ r.policy_value = pv ∧ r.salvage_value = sv ∧
    r.is_total_loss = decide (rq > r.threshold) ∧
    r.decision_margin = rq - r.threshold ∧
    r.threshold_percentage = (if r.threshold > 0 then rq / r.threshold * 100 else 0) ∧
    ((lt = "client" ∧ r.threshold = pv * get_threshold pt) ∨
      (lt = "third_party" ∧ r.threshold = (pv - sv) * get_threshold pt)) := by
  unfold calculate_total_loss at h
  split at h <;> dsimp only at h <;> split at h <;> try simp at h
  all_goals split at h
  all_goals try (
    simp only [CalcOutcome.ok.injEq] at h
    obtain ⟨hr, _⟩ := h
    subst hr
    exact ⟨rfl, rfl, rfl, rfl, rfl, rfl, Or.inl ⟨by assumption, rfl⟩⟩)
  all_goals split at h
  all_goals try simp at h
  all_goals (
    obtain ⟨hr, _⟩ := h
    subst hr
    exact ⟨rfl, rfl, rfl, rfl, rfl, rfl, Or.inr ⟨by assumption, rfl⟩⟩)

/-- A successful non-skipped run used exactly the computed validation outcome,
and that outcome was valid. -/
theorem calc_ok_valid (vin pt : String) (pv sv rq : ℚ) (lt : String)
    (r : ValuationResult) (v : ValidationResult)
    (h : calculate_total_loss vin pt pv sv rq lt false = .ok r v) :
    v = validate_total_loss_input vin pt pv sv rq lt ∧
    (validate_total_loss_input vin pt pv sv rq lt).is_valid = true := by
  unfold calculate_total_loss at h
  dsimp only at h
  by_cases hv : (validate_total_loss_input vin pt pv sv rq lt).is_valid = true
  · refine ⟨?_, hv⟩
    rw [if_neg (by simp [hv])] at h
    split at h
    · simp only [CalcOutcome.ok.injEq] at h
      exact h.2.symm
    · split at h
      · simp only [CalcOutcome.ok.injEq] at h
        exact h.2.symm
      · simp at h
  · rw [if_pos (by simp [Bool.not_eq_true] at hv; simp [hv])] at h
    simp at h

/-! ## Character-level lemmas for the vehicle identifier -/

theorem char_le_iff (a b : Char) : a ≤ b ↔ a.toNat ≤ b.toNat := Iff.rfl

theorem char_eq_iff (a b : Char) : a = b ↔ a.toNat = b.toNat := by
  constructor
  · intro h
    rw [h]
  · intro h
    have h2 := congrArg Char.ofNat h
    simpa [Char.ofNat_toNat] using h2

/-- The regex character class [A-HJ-NPR-Z0-9] is exactly the 33-symbol
alphabet of digits and uppercase letters without I, O, Q. -/
theorem isVinChar_iff_spec (c : Char) : isVinChar c = true ↔ specVinChar c := by
  unfold isVinChar specVinChar
  simp only [Bool.or_eq_true, Bool.and_eq_true, decide_eq_true_eq, char_le_iff, char_eq_iff,
    ne_eq]
  simp only [show ('A' : Char).toNat = 65 from rfl, show ('H' : Char).toNat = 72 from rfl,
    show ('J' : Char).toNat = 74 from rfl, show ('N' : Char).toNat = 78 from rfl,
    show ('P' : Char).toNat = 80 from rfl, show ('R' : Char).toNat = 82 from rfl,
    show ('Z' : Char).toNat = 90 from rfl, show ('0' : Char).toNat = 48 from rfl,
    show ('9' : Char).toNat = 57 from rfl, show ('I' : Char).toNat = 73 from rfl,
    show ('O' : Char).toNat = 79 from rfl, show ('Q' : Char).toNat = 81 from rfl]
  omega

/-! ## Successful-run constructions for the engine -/

theorem calc_ok_of_valid_client (vin pt : String) (pv sv rq : ℚ)
    (hv : (validate_total_loss_input vin pt pv sv rq "client").is_valid = true) :
    calculate_total_loss vin pt pv sv rq "client" false =
      .ok (ValuationResult.make (decide (rq > pv * get_threshold pt))
        (pv * get_threshold pt) pv sv rq "client" pt vin
        (toString (get_threshold pt * 100) ++ "% of Policy Value"))
        (validate_total_loss_input vin pt pv sv rq "client") := by
  simp [calculate_total_loss, hv]

theorem calc_ok_of_valid_third (vin pt : String) (pv sv rq : ℚ)
    (hv : (validate_total_loss_input vin pt pv sv rq "third_party").is_valid = true) :
    calculate_total_loss vin pt pv sv rq "third_party" false =
      .ok (ValuationResult.make (decide (rq > (pv - sv) * get_threshold pt))
        ((pv - sv) * get_threshold pt) pv sv rq "third_party" pt vin
        (toString (get_threshold pt * 100) ++ "% of Net Value (Policy - Salvage)"))
        (validate_total_loss_input vin pt pv sv rq "third_party") := by
  simp [calculate_total_loss, hv]

/-! ## Claim theorems -/

/-- C1: for every computed decision, is_total_loss equals
(repair_quote > threshold) under strict greater-than; a repair quote exactly
equal to the threshold yields is_total_loss = false (REPAIRABLE) and
decision_margin = 0, for both loss types. -/
theorem C1_strict_decision (vin pt : String) (pv sv rq : ℚ) (lt : String) (skip : Bool)
    (r : ValuationResult) (v : ValidationResult)
    (h : calculate_total_loss vin pt pv sv rq lt skip = .ok r v) :
    r.is_total_loss = decide (r.repair_quote > r.threshold) ∧
    (r.repair_quote = r.threshold → r.is_total_loss = false ∧ r.decision_margin = 0) := by
  obtain ⟨hrq, _, _, hdec, hmar, _, _⟩ := calc_ok_fields vin pt pv sv rq lt skip r v h
  constructor
  · rw [hrq]
    exact hdec
  · intro he
    have hrt : rq = r.threshold := by rw [← hrq, he]
    constructor
    · rw [hdec, hrt]
      simp
    · rw [hmar, hrt]
      ring

/-- C1 witness: the strict-decision property instantiated at spec scenario A
(client loss, policy 20000, salvage 5000, repair 15000). -/
theorem C1_strict_decision_witness :
    calcA.resultOf.is_total_loss =
      decide (calcA.resultOf.repair_quote > calcA.resultOf.threshold) ∧
    (calcA.resultOf.repair_quote = calcA.resultOf.threshold →
      calcA.resultOf.is_total_loss = false ∧ calcA.resultOf.decision_margin = 0) :=
  C1_strict_decision demo_vin "comprehensive" 20000 5000 15000 "client" false
    calcA.resultOf calcA.validationOf (by with_unfolding_all rfl)

/-- C3: whenever validation produces at least one error, calculate_total_loss
with validation not skipped returns no result, only the validation outcome,
and raises nothing. -/
theorem C3_invalid_no_result (vin pt : String) (pv sv rq : ℚ) (lt : String)
    (h : (validate_total_loss_input vin pt pv sv rq lt).is_valid = false) :
    calculate_total_loss vin pt pv sv rq lt false =
      .invalid (validate_total_loss_input vin pt pv sv rq lt) := by
  simp [calculate_total_loss, h]

/-- C3 witness: an input with an empty vehicle identifier fails validation and
yields the invalid outcome, not a result. -/
theorem C3_invalid_no_result_witness :
    calculate_total_loss "" "comprehensive" 20000 5000 15000 "client" false =
      .invalid (validate_total_loss_input "" "comprehensive" 20000 5000 15000 "client") :=
  C3_invalid_no_result "" "comprehensive" 20000 5000 15000 "client"
    (by with_unfolding_all rfl)

/-- C4: a ValidationOutcome is valid iff its error list is empty, and adding a
warning never changes validity. -/
theorem C4_validity_iff_no_errors (r : ValidationResult) (f m : String) :
    (r.is_valid = true ↔ r.errors = []) ∧ (r.add_warning f m).is_valid = r.is_valid := by
  constructor
  · simp [ValidationResult.is_valid, List.length_eq_zero]
  · simp [ValidationResult.is_valid, ValidationResult.add_warning]

/-- C5 (code evaluation at the failing input): the loss string CLIENT, which
differs from the exact string client only in case, passes validate_loss_type
and full validation, yet the engine then raises ValueError instead of
computing — the validator and engine accepted-value sets are out of lockstep. -/
theorem C5_loss_type_case_gap :
    validate_loss_type "CLIENT" = true ∧
    (validate_total_loss_input demo_vin "comprehensive" 20000 5000 15000 "CLIENT").is_valid
      = true ∧
    calculate_total_loss demo_vin "comprehensive" 20000 5000 15000 "CLIENT" false =
      .valueError "Invalid loss type: CLIENT" := by
  refine ⟨by with_unfolding_all rfl, by with_unfolding_all rfl, by with_unfolding_all rfl⟩

/-- C8: threshold_percentage is the guarded quotient: repair / threshold × 100
when the threshold is positive, 0 when the threshold is 0, in particular in a
third-party case with salvage equal to policy value. -/
theorem C8_threshold_percentage_guard (vin pt : String) (pv sv rq : ℚ) (lt : String)
    (skip : Bool) (r : ValuationResult) (v : ValidationResult)
    (h : calculate_total_loss vin pt pv sv rq lt skip = .ok r v) :
    (r.threshold > 0 → r.threshold_percentage = r.repair_quote / r.threshold * 100) ∧
    (r.threshold = 0 → r.threshold_percentage = 0) ∧
    (lt = "third_party" → sv = pv → r.threshold = 0 ∧ r.threshold_percentage = 0) := by
  obtain ⟨hrq, _, _, _, _, hpct, hbr⟩ := calc_ok_fields vin pt pv sv rq lt skip r v h
  have hzero : r.threshold = 0 → r.threshold_percentage = 0 := by
    intro hz
    rw [hpct, hz]
    simp
  refine ⟨?_, hzero, ?_⟩
  · intro hpos
    rw [hpct, if_pos hpos, hrq]
  · intro hlt3 hsveq
    rcases hbr with ⟨hc, _⟩ | ⟨_, ht⟩
    · rw [hlt3] at hc
      simp at hc
    · have hz : r.threshold = 0 := by
        rw [ht, hsveq]
        ring
      exact ⟨hz, hzero hz⟩

/-- C8 witness: the third-party boundary case with salvage equal to policy
value (both 20000) has threshold 0 and threshold_percentage 0. -/
theorem C8_threshold_percentage_guard_witness :
    (calcZero.resultOf.threshold > 0 →
      calcZero.resultOf.threshold_percentage =
        calcZero.resultOf.repair_quote / calcZero.resultOf.threshold * 100) ∧
    (calcZero.resultOf.threshold = 0 → calcZero.resultOf.threshold_percentage = 0) ∧
    ("third_party" = "third_party" → (20000 : ℚ) = 20000 →
      calcZero.resultOf.threshold = 0 ∧ calcZero.resultOf.threshold_percentage = 0) :=
  C8_threshold_percentage_guard demo_vin "comprehensive" 20000 20000 1000 "third_party"
    false calcZero.resultOf calcZero.validationOf (by with_unfolding_all rfl)

/-- C10: every recognized policy type except commercial is missing from the
threshold table and therefore gets the fallback fraction 0.7 (the client
entry); only commercial has its own entry, 0.65. -/
theorem C10_threshold_fallback :
    POLICY_TYPES =
      ["comprehensive", "third_party_property", "third_party_fire_theft", "commercial"] ∧
    THRESHOLDS.lookup "comprehensive" = none ∧
    THRESHOLDS.lookup "third_party_property" = none ∧
    THRESHOLDS.lookup "third_party_fire_theft" = none ∧
    get_threshold "comprehensive" = 7/10 ∧
    get_threshold "third_party_property" = 7/10 ∧
    get_threshold "third_party_fire_theft" = 7/10 ∧
    THRESHOLDS.lookup "commercial" = some (13/20) ∧
    get_threshold "commercial" = 13/20 := by
  refine ⟨rfl, rfl, rfl, rfl, ?_, ?_, ?_, ?_, ?_⟩ <;> with_unfolding_all rfl

/-- C2: for every valid input, the threshold is computed by loss type: client
loss uses policy_value × fraction(policy_type); third-party loss uses
(policy_value − salvage_value) × fraction(policy_type), and the net value is
never negative because validation enforces salvage ≤ policy. -/
theorem C2_threshold_by_loss_type (vin pt : String) (pv sv rq : ℚ) (lt : String)
    (r : ValuationResult) (v : ValidationResult)
    (h : calculate_total_loss vin pt pv sv rq lt false = .ok r v) :
    (lt = "client" → r.threshold = pv * get_threshold pt) ∧
    (lt = "third_party" → r.threshold = (pv - sv) * get_threshold pt ∧ 0 ≤ pv - sv) := by
  obtain ⟨_, _, _, _, _, _, hbr⟩ := calc_ok_fields vin pt pv sv rq lt false r v h
  obtain ⟨_, hvalid⟩ := calc_ok_valid vin pt pv sv rq lt r v h
  obtain ⟨_, _, _, _, _, _, hsvpv, _⟩ := valid_facts vin pt pv sv rq lt hvalid
  constructor
  · intro hc
    rcases hbr with ⟨_, ht⟩ | ⟨h3, _⟩
    · exact ht
    · rw [hc] at h3
      exact absurd h3 (by decide)
  · intro hc
    rcases hbr with ⟨h3, _⟩ | ⟨_, ht⟩
    · rw [hc] at h3
      exact absurd h3 (by decide)
    · exact ⟨ht, by linarith⟩

/-- C2 witness at spec scenario B: third-party loss, policy 25000, salvage
7000, repair 13000, comprehensive policy. -/
theorem C2_threshold_by_loss_type_witness :
    ("third_party" = "client" →
      calcB.resultOf.threshold = 25000 * get_threshold "comprehensive") ∧
    ("third_party" = "third_party" →
      calcB.resultOf.threshold = (25000 - 7000) * get_threshold "comprehensive" ∧
      (0 : ℚ) ≤ 25000 - 7000) :=
  C2_threshold_by_loss_type demo_vin "comprehensive" 25000 7000 13000 "third_party"
    calcB.resultOf calcB.validationOf (by with_unfolding_all rfl)

/-- C6: an otherwise-valid input with repair_quote above policy_value times
the configured factor 2.0 gets a valid outcome carrying at least one warning
on repair_quote, and a decision is still produced with is_total_loss = true. -/
theorem C6_high_quote_warning (vin pt : String) (pv sv rq : ℚ) (lt : String)
    (hlt : lt = "client" ∨ lt = "third_party")
    (hv : (validate_total_loss_input vin pt pv sv rq lt).is_valid = true)
    (hrq : rq > pv * max_repair_quote_factor) :
    (∃ w ∈ (validate_total_loss_input vin pt pv sv rq lt).warnings,
      w.field = "repair_quote") ∧
    ∃ r, calculate_total_loss vin pt pv sv rq lt false =
        .ok r (validate_total_loss_input vin pt pv sv rq lt) ∧
      r.is_total_loss = true := by
  obtain ⟨-, -, -, hpv1, -, hsv0, hsvpv, hrq0⟩ := valid_facts vin pt pv sv rq lt hv
  have hpv0 : (0 : ℚ) < pv := by
    have h1000 : (1000 : ℚ) ≤ pv := by simpa [min_policy_value] using hpv1
    linarith
  have hrq2 : pv * 2 < rq := by simpa [max_repair_quote_factor] using hrq
  have hrqc : (validate_monetary_value rq "Repair Quote" (some min_repair_quote)
      none).1 = true :=
    (monetary_min_true_iff rq min_repair_quote "Repair Quote"
      (by norm_num [min_repair_quote])).2 (by simpa [min_repair_quote] using hrq0)
  constructor
  · rw [vtli_warnings_eq]
    rw [if_pos hrqc, if_pos hrq]
    exact ⟨rqWarn pv rq, by simp, rfl⟩
  · have hple : pv * get_threshold pt < rq := by
      have h1 : pv * get_threshold pt ≤ pv * 2 :=
        mul_le_mul_of_nonneg_left (get_threshold_le_two pt) (le_of_lt hpv0)
      linarith
    have htple : (pv - sv) * get_threshold pt < rq := by
      have h1 : (pv - sv) * get_threshold pt ≤ (pv - sv) * 2 :=
        mul_le_mul_of_nonneg_left (get_threshold_le_two pt) (by linarith)
      linarith
    rcases hlt with hc | hc
    · subst hc
      refine ⟨_, calc_ok_of_valid_client vin pt pv sv rq hv, ?_⟩
      simp [ValuationResult.make, hple]
    · subst hc
      refine ⟨_, calc_ok_of_valid_third vin pt pv sv rq hv, ?_⟩
      simp [ValuationResult.make, htple]

/-- C6 witness: policy 10000, salvage 0, repair 25000 (2.5 times the policy
value), client loss — valid with a repair_quote warning, decided TOTAL LOSS. -/
theorem C6_high_quote_warning_witness :
    (∃ w ∈ (validate_total_loss_input demo_vin "comprehensive"
        10000 0 25000 "client").warnings, w.field = "repair_quote") ∧
    ∃ r, calculate_total_loss demo_vin "comprehensive" 10000 0 25000 "client" false =
        .ok r (validate_total_loss_input demo_vin "comprehensive" 10000 0 25000 "client") ∧
      r.is_total_loss = true :=
  C6_high_quote_warning demo_vin "comprehensive" 10000 0 25000 "client" (Or.inl rfl)
    (by with_unfolding_all rfl) (by norm_num [max_repair_quote_factor])

/-- C7 counterexample: in a batch whose first case passes validation with the
loss string CLIENT, the engine raises and the whole batch aborts — the second,
fully valid case gets no entry at all — although that same case evaluated in
isolation produces its entry. -/
theorem C7_batch_abort_counterexample :
    calculate_batch [upperLossCase, goodCase] =
      Except.error "Invalid loss type: CLIENT" ∧
    calculate_batch [goodCase] =
      Except.ok [batchEntry goodCase (runCase goodCase)] := by
  constructor
  · with_unfolding_all rfl
  · with_unfolding_all rfl

/-- C7 (amended): for every ordered sequence of cases in which no case makes
the engine raise (every case that reaches the computation carries one of the
two exact loss-type strings), evaluate_batch returns exactly the in-order,
per-case map of the isolated outcomes: same length, same order, each entry
determined by its own case alone, and a failed validation never aborts or
affects any other case. -/
theorem C7_batch_pointwise (cases2 : List Case)
    (hok : ∀ c ∈ cases2, ∀ m, runCase c ≠ .valueError m) :
    calculate_batch cases2 = .ok (cases2.map (fun c => batchEntry c (runCase c))) := by
  induction cases2 with
  | nil => rfl
  | cons c rest ih =>
    have hrest : ∀ c2 ∈ rest, ∀ m, runCase c2 ≠ .valueError m :=
      fun c2 hc2 => hok c2 (List.mem_cons_of_mem c hc2)
    have step : calculate_batch (c :: rest) =
        (match runCase c with
        | .valueError msg => .error msg
        | .invalid v =>
          match calculate_batch rest with
          | .ok l => .ok (batchEntry c (.invalid v) :: l)
          | .error msg => .error msg
        | .ok r v =>
          match calculate_batch rest with
          | .ok l => .ok (batchEntry c (.ok r v) :: l)
          | .error msg => .error msg) := rfl
    rw [step, ih hrest]
    cases hr : runCase c with
    | valueError m => exact absurd hr (hok c (List.mem_cons_self c rest) m)
    | invalid v => simp [batchEntry, hr]
    | ok r v => simp [batchEntry, hr]

/-- C7 witness: a batch of a validation-failing case followed by a valid case
maps pointwise — the failure neither aborts nor disturbs the valid case. -/
theorem C7_batch_pointwise_witness :
    calculate_batch [invalidVinCase, goodCase] =
      .ok ([invalidVinCase, goodCase].map (fun c => batchEntry c (runCase c))) :=
  C7_batch_pointwise [invalidVinCase, goodCase] (by
    have h1 : runCase invalidVinCase =
        .invalid (validate_total_loss_input "" "comprehensive"
          20000 5000 15000 "client") := by
      with_unfolding_all rfl
    have h2 : runCase goodCase = CalcOutcome.ok calcA.resultOf calcA.validationOf := by
      with_unfolding_all rfl
    intro c hc m
    simp only [List.mem_cons, List.not_mem_nil, or_false] at hc
    rcases hc with rfl | rfl
    · rw [h1]
      simp
    · rw [h2]
      simp)

/-- C9: the vehicle-identifier check accepts a string iff, after trimming
surrounding whitespace and upper-casing, it is exactly 17 characters drawn
from the 33-symbol alphabet of digits and uppercase letters excluding I, O
and Q; and any deviation makes validate_total_loss_input produce a
validation error on field vin, whatever the other inputs are. -/
theorem C9_vin_characterization (s pt : String) (pv sv rq : ℚ) (lt : String) :
    (validate_vin s = true ↔ specVinAccepts s) ∧
    (¬specVinAccepts s →
      ∃ e ∈ (validate_total_loss_input s pt pv sv rq lt).errors, e.field = "vin") := by
  have hiff : validate_vin s = true ↔ specVinAccepts s := by
    unfold validate_vin specVinAccepts
    by_cases hs : s = ""
    · subst hs
      rw [if_pos rfl]
      have hz : (pyUpper (pyStrip "")).toList.length = 0 := by with_unfolding_all rfl
      constructor
      · intro h
        exact absurd h (by simp)
      · rintro ⟨h1, -⟩
        rw [hz] at h1
        exact absurd h1 (by decide)
    · rw [if_neg hs]
      dsimp only
      by_cases h17 : (pyUpper (pyStrip s)).toList.length = 17
      · rw [if_neg (by simpa using h17)]
        simp only [Bool.and_eq_true, beq_iff_eq, List.all_eq_true, decide_eq_true_eq]
        constructor
        · rintro ⟨-, hall⟩
          exact ⟨h17, fun c hc => (isVinChar_iff_spec c).1 (hall c hc)⟩
        · rintro ⟨-, hall⟩
          exact ⟨h17, fun c hc => (isVinChar_iff_spec c).2 (hall c hc)⟩
      · rw [if_pos (by simpa using h17)]
        constructor
        · intro h
          exact absurd h (by simp)
        · rintro ⟨h1, -⟩
          exact absurd h1 h17
  refine ⟨hiff, ?_⟩
  intro hdev
  have hfalse : validate_vin s = false := by
    rcases Bool.eq_false_or_eq_true (validate_vin s) with h | h
    · exact absurd (hiff.1 h) hdev
    · exact h
  rw [vtli_errors_eq]
  refine ⟨vinErr s, ?_, rfl⟩
  rw [if_neg (by simp [hfalse])]
  simp

end Crashify
